import Mathlib

/-!
Verification of the thin Streamlit client in `streamlit_main.py`.

The Python module is a presentation layer: it builds JSON payloads, posts them
to a FastAPI backend, and renders the decoded JSON response through a sequence
of `st.*` display calls.  The shallow embedding below models:

* decoded JSON values as the inductive `Json` (numbers are embedded as `ℚ`;
  the Python floats of this program are only ever divided by powers of ten
  and compared, so the exact-rational model is faithful for every claim);
* Python truthiness (`Json.truthy`), `dict.get` (`jGet`/`jGetD`);
* each `st.*` call as a `DisplayAct` value; a function body becomes the list
  of acts it emits, in program order;
* Python exceptions raised by the rendering code (`None.get`, `.get` on a
  non-dict, string formatting of a non-number, pandas `KeyError`) as
  `Except CrashKind`;
* the `requests` transport as an oracle `String → Json → HttpOutcome`; the
  single `requests.post` call of `make_request` consumes the oracle once and
  the list of issued requests is returned so that "no network call" claims
  are observable.

String renderings of numbers (`numRender`, `fmtCommas2`, `fmt1`) model
Python's `str`, `format(x, ',.2f')` and `format(x, '.1f')` on the ℚ-embedded
values: round-half-even to the requested number of decimals, comma grouping
of the integer part.
-/

/- ### Python-style number formatting -/

/-- Two-digit, zero-padded rendering of `m < 100` (the cents of `:,.2f`). -/
def twoDig (m : Nat) : String :=
  if m < 10 then "0" ++ toString m else toString m

/-- Insert a comma before every later group of three digits.  The input is the
reversed digit list; `k` counts digits already emitted. -/
def commasRev : List Char → Nat → List Char
  | [], _ => []
  | c :: cs, k =>
    if k ≠ 0 ∧ k % 3 = 0 then ',' :: c :: commasRev cs (k + 1)
    else c :: commasRev cs (k + 1)

/-- `7500000 ↦ "7,500,000"`: the integer part of Python's `,` format spec. -/
def commaGroupNat (n : Nat) : String :=
  ((commasRev (toString n).data.reverse 0).reverse).asString

/-- Round to the nearest integer, ties to even — the rounding used by Python's
fixed-point `format`. -/
def roundHalfEven (q : ℚ) : ℤ :=
  let f := ⌊q⌋
  let r := q - (f : ℚ)
  if r < 1/2 then f
  else if 1/2 < r then f + 1
  else if f % 2 = 0 then f else f + 1

/-- `format(x, ',.2f')`: two decimals, comma-grouped integer part. -/
def fmtCommas2 (q : ℚ) : String :=
  let a := (roundHalfEven (q * 100)).natAbs
  (if q < 0 then "-" else "") ++ commaGroupNat (a / 100) ++ "." ++ twoDig (a % 100)

/-- `format(x, '.1f')`: one decimal, no grouping. -/
def fmt1 (q : ℚ) : String :=
  let a := (roundHalfEven (q * 10)).natAbs
  (if q < 0 then "-" else "") ++ toString (a / 10) ++ "." ++ toString (a % 10)

/-- Smallest `k ≤ 64` with `den ∣ 10 ^ k`, if any: the decimal exponent of an
exactly-decimal rational. -/
def findDecK (den : Nat) : Option Nat :=
  (List.range 65).find? (fun k => 10 ^ k % den == 0)

/-- Left-pad with zeros to length `k`. -/
def padZeros (k : Nat) (s : String) : String :=
  if s.length < k then (List.replicate (k - s.length) '0').asString ++ s else s

/-- Python's `str` of a float, on the ℚ embedding: exact decimal expansion
(with a trailing `.0` for integral values, as Python prints floats); rationals
without a finite decimal expansion fall back to `p/q` (unreachable for values
this program produces). -/
def numRender (q : ℚ) : String :=
  match findDecK q.den with
  | some 0 => toString q.num ++ ".0"
  | some k =>
      let a := q.num.natAbs * 10 ^ k / q.den
      (if q.num < 0 then "-" else "") ++ toString (a / 10 ^ k) ++ "." ++
        padZeros k (toString (a % 10 ^ k))
  | none => toString q.num ++ "/" ++ toString q.den

/- ### Decoded JSON values -/

/-- A decoded JSON value, as returned by `response.json()`.  Numbers are `ℚ`
(see the header comment); objects are association lists in wire order. -/
inductive Json where
  | null : Json
  | bool : Bool → Json
  | num : ℚ → Json
  | str : String → Json
  | arr : List Json → Json
  | obj : List (String × Json) → Json

mutual

/-- Decidable equality of decoded JSON values (the nested occurrence of
`List` blocks automatic derivation). -/
def Json.decEq : (a b : Json) → Decidable (a = b)
  | .null, .null => .isTrue rfl
  | .null, .bool _ => .isFalse (fun h => Json.noConfusion h)
  | .null, .num _ => .isFalse (fun h => Json.noConfusion h)
  | .null, .str _ => .isFalse (fun h => Json.noConfusion h)
  | .null, .arr _ => .isFalse (fun h => Json.noConfusion h)
  | .null, .obj _ => .isFalse (fun h => Json.noConfusion h)
  | .bool _, .null => .isFalse (fun h => Json.noConfusion h)
  | .bool a, .bool b =>
      if h : a = b then .isTrue (by rw [h])
      else .isFalse (fun hc => by injection hc with h1; exact h h1)
  | .bool _, .num _ => .isFalse (fun h => Json.noConfusion h)
  | .bool _, .str _ => .isFalse (fun h => Json.noConfusion h)
  | .bool _, .arr _ => .isFalse (fun h => Json.noConfusion h)
  | .bool _, .obj _ => .isFalse (fun h => Json.noConfusion h)
  | .num _, .null => .isFalse (fun h => Json.noConfusion h)
  | .num _, .bool _ => .isFalse (fun h => Json.noConfusion h)
  | .num a, .num b =>
      if h : a = b then .isTrue (by rw [h])
      else .isFalse (fun hc => by injection hc with h1; exact h h1)
  | .num _, .str _ => .isFalse (fun h => Json.noConfusion h)
  | .num _, .arr _ => .isFalse (fun h => Json.noConfusion h)
  | .num _, .obj _ => .isFalse (fun h => Json.noConfusion h)
  | .str _, .null => .isFalse (fun h => Json.noConfusion h)
  | .str _, .bool _ => .isFalse (fun h => Json.noConfusion h)
  | .str _, .num _ => .isFalse (fun h => Json.noConfusion h)
  | .str a, .str b =>
      if h : a = b then .isTrue (by rw [h])
      else .isFalse (fun hc => by injection hc with h1; exact h h1)
  | .str _, .arr _ => .isFalse (fun h => Json.noConfusion h)
  | .str _, .obj _ => .isFalse (fun h => Json.noConfusion h)
  | .arr _, .null => .isFalse (fun h => Json.noConfusion h)
  | .arr _, .bool _ => .isFalse (fun h => Json.noConfusion h)
  | .arr _, .num _ => .isFalse (fun h => Json.noConfusion h)
  | .arr _, .str _ => .isFalse (fun h => Json.noConfusion h)
  | .arr a, .arr b =>
      match Json.decEqList a b with
      | .isTrue h => .isTrue (by rw [h])
      | .isFalse h => .isFalse (fun hc => by injection hc with h1; exact h h1)
  | .arr _, .obj _ => .isFalse (fun h => Json.noConfusion h)
  | .obj _, .null => .isFalse (fun h => Json.noConfusion h)
  | .obj _, .bool _ => .isFalse (fun h => Json.noConfusion h)
  | .obj _, .num _ => .isFalse (fun h => Json.noConfusion h)
  | .obj _, .str _ => .isFalse (fun h => Json.noConfusion h)
  | .obj _, .arr _ => .isFalse (fun h => Json.noConfusion h)
  | .obj a, .obj b =>
      match Json.decEqFields a b with
      | .isTrue h => .isTrue (by rw [h])
      | .isFalse h => .isFalse (fun hc => by injection hc with h1; exact h h1)

/-- Decidable equality of JSON array elements. -/
def Json.decEqList : (a b : List Json) → Decidable (a = b)
  | [], [] => .isTrue rfl
  | [], _ :: _ => .isFalse (fun h => List.noConfusion h)
  | _ :: _, [] => .isFalse (fun h => List.noConfusion h)
  | x :: xs, y :: ys =>
      match Json.decEq x y with
      | .isFalse h1 => .isFalse (fun hc => by injection hc with h ht; exact h1 h)
      | .isTrue h1 =>
          match Json.decEqList xs ys with
          | .isTrue h2 => .isTrue (by rw [h1, h2])
          | .isFalse h2 => .isFalse (fun hc => by injection hc with h ht; exact h2 ht)

/-- Decidable equality of JSON object fields. -/
def Json.decEqFields : (a b : List (String × Json)) → Decidable (a = b)
  | [], [] => .isTrue rfl
  | [], _ :: _ => .isFalse (fun h => List.noConfusion h)
  | _ :: _, [] => .isFalse (fun h => List.noConfusion h)
  | (k1, v1) :: xs, (k2, v2) :: ys =>
      if hk : k1 = k2 then
        match Json.decEq v1 v2 with
        | .isFalse h1 =>
            .isFalse (fun hc => by
              injection hc with h ht; exact h1 (congrArg Prod.snd h))
        | .isTrue h1 =>
            match Json.decEqFields xs ys with
            | .isTrue h2 => .isTrue (by rw [hk, h1, h2])
            | .isFalse h2 =>
                .isFalse (fun hc => by injection hc with h ht; exact h2 ht)
      else
        .isFalse (fun hc => by
          injection hc with h ht; exact hk (congrArg Prod.fst h))

end

instance : DecidableEq Json := Json.decEq

/-- Python truthiness of a decoded JSON value. -/
def Json.truthy : Json → Bool
  | .null => false
  | .bool b => b
  | .num q => q != 0
  | .str s => s != ""
  | .arr l => !l.isEmpty
  | .obj fs => !fs.isEmpty

/-- `d.get(k)` on a decoded JSON object: `None` (here `.null`) when absent. -/
def jGet (fs : List (String × Json)) (k : String) : Json :=
  (List.lookup k fs).getD .null

/-- `d.get(k, default)` on a decoded JSON object. -/
def jGetD (fs : List (String × Json)) (k : String) (d : Json) : Json :=
  (List.lookup k fs).getD d

/-- A single-quote character, built numerically so the source file contains no
bare quote character. -/
def pyQuote : String := String.singleton (Char.ofNat 39)

mutual

/-- Python `repr` of a decoded JSON value (used by `str` inside containers).
String escaping inside `repr` is simplified to plain quoting; no claim
depends on it. -/
def pyRepr : Json → String
  | .null => "None"
  | .bool b => if b then "True" else "False"
  | .num q => numRender q
  | .str s => pyQuote ++ s ++ pyQuote
  | .arr l => "[" ++ String.intercalate ", " (pyReprList l) ++ "]"
  | .obj fs => "\x7b" ++ String.intercalate ", " (pyReprFields fs) ++ "\x7d"

/-- `repr` of each element of a JSON array. -/
def pyReprList : List Json → List String
  | [] => []
  | j :: js => pyRepr j :: pyReprList js

/-- `repr` of each `key: value` entry of a JSON object. -/
def pyReprFields : List (String × Json) → List String
  | [] => []
  | (k, v) :: fs => (pyQuote ++ k ++ pyQuote ++ ": " ++ pyRepr v) :: pyReprFields fs

end

/-- Python `str` of a decoded JSON value, as interpolated by an f-string. -/
def pyStr : Json → String
  | .str s => s
  | j => pyRepr j

/- ### Display actions and crashes -/

/-- One `st.*` call, with the strings it was passed.  `stDataframe` carries
the index column name, the index values, the column names and the cell rows;
`stDownloadButton` carries label, payload bytes, file name and MIME type. -/
inductive DisplayAct where
  | stError : String → DisplayAct
  | stSuccess : String → DisplayAct
  | stWarning : String → DisplayAct
  | stInfo : String → DisplayAct
  | stSubheader : String → DisplayAct
  | stWrite : String → DisplayAct
  | stMarkdown : String → DisplayAct
  | stMetric : String → String → DisplayAct
  | stDataframe : String → List Json → List String → List (List Json) → DisplayAct
  | stDownloadButton : String → List UInt8 → String → String → DisplayAct
  deriving DecidableEq

/-- The Python exceptions the rendering code can raise: `None.get`
(`AttributeError`), `.get` on a non-dict (`AttributeError`), a fixed-point
format spec applied to a non-number (`ValueError`), a missing dataframe
column (`KeyError`), iterating a non-iterable (`TypeError`), and
`pd.DataFrame` on a non-list-of-dicts shape. -/
inductive CrashKind where
  | noneGet
  | nonDictGet
  | keyErr
  | formatErr
  | typeErr
  | pandasErr
  deriving DecidableEq

/-- `f"{x:,.2f}"` applied to a decoded JSON value: numbers format; Python
booleans are ints, so they format as `1`/`0`; everything else raises. -/
def fmtNum2 : Json → Except CrashKind String
  | .num q => .ok (fmtCommas2 q)
  | .bool b => .ok (fmtCommas2 (if b then 1 else 0))
  | _ => .error .formatErr

/-- Python `for x in j`: lists yield elements, strings yield one-character
strings, dicts yield keys; the rest raise `TypeError`. -/
def pyIter : Json → Except CrashKind (List Json)
  | .arr l => .ok l
  | .str s => .ok (s.data.map (fun c => Json.str (String.singleton c)))
  | .obj fs => .ok (fs.map (fun f => Json.str f.1))
  | _ => .error .typeErr

/- ### HTTP client adapter (`make_request`) -/

/-- The backend base URL fixed at the top of the module. -/
def FASTAPI_BACKEND_URL : String := "http://backend:8000"

/-- What one `requests.post` attempt can come back with: a decoded JSON body,
or one of the three exception classes `make_request` catches (the detail
string is `str(e)`). -/
inductive HttpOutcome where
  | ok : Json → HttpOutcome
  | connectionError : HttpOutcome
  | requestError : String → HttpOutcome
  | unexpectedError : String → HttpOutcome

/-- `make_request(endpoint, payload)`.  The transport oracle stands for the
network; it is consulted exactly once, and the list of issued
`(endpoint, payload)` requests is returned alongside the result pair so that
claims about "no network call" are observable. -/
def make_request (endpoint : String) (payload : Json)
    (transport : String → Json → HttpOutcome) :
    (Option Json × Option String) × List (String × Json) :=
  (match transport endpoint payload with
   | .ok j => (some j, none)
   | .connectionError =>
       (none, some ("Could not connect to backend at " ++ FASTAPI_BACKEND_URL))
   | .requestError e => (none, some ("Request error: " ++ e))
   | .unexpectedError e => (none, some ("Unexpected error: " ++ e)),
   [(endpoint, payload)])

/- ### Result renderer (`display_result`) -/

/-- Truthiness of the optional error string (`if error_msg:`). -/
def optTruthy : Option String → Bool
  | none => false
  | some s => s != ""

/-- `display_result(result, error_msg)`: emitted acts plus the Python return
value (`none` models Python's implicit `return None`).  `result.get` on
`None` or on a non-dict raises. -/
def display_result (result : Option Json) (error_msg : Option String) :
    Except CrashKind (List DisplayAct × Option Json) :=
  if optTruthy error_msg then .ok ([.stError (error_msg.getD "")], none)
  else
    match result with
    | none => .error .noneGet
    | some (.obj fs) =>
        if (jGet fs "error").truthy then
          .ok ([.stError ("Error: " ++
                  pyStr (jGetD fs "error_message" (.str "Unknown error")))], none)
        else .ok ([], some (.obj fs))
    | some _ => .error .nonDictGet

/- ### Eligibility panel (`display_eligibility_details`) -/

/-- `display_eligibility_details(eligibility_details)`: the emitted acts, in
program order (guard, subheader, the four indicator lines of column 1, the
metric of column 2, the failed-criteria lines, the remediation hints).
`.get` on a truthy non-dict raises, as in Python. -/
def display_eligibility_details (eligibility_details : Json) :
    Except CrashKind (List DisplayAct) :=
  if !eligibility_details.truthy then .ok []
  else
    match eligibility_details with
    | .obj fs => do
        let col1 : List DisplayAct :=
          [.stSubheader "📋 Eligibility Criteria Check",
           if (jGet fs "salary_check").truthy then
             .stSuccess "✅ Minimum salary requirement met"
           else .stError "❌ Minimum salary requirement not met",
           if (jGet fs "pay_frequency_check").truthy then
             .stSuccess "✅ Valid pay frequency"
           else .stError "❌ Invalid pay frequency",
           if (jGet fs "amount_check").truthy then
             .stSuccess "✅ Valid advance amount"
           else .stError "❌ Invalid advance amount",
           if (jGet fs "advance_limit_check").truthy then
             .stSuccess "✅ Within advance limit"
           else .stError "❌ Exceeds maximum advance limit"]
        let max_eligible := jGet fs "max_eligible_advance"
        let col2 ← if max_eligible ≠ Json.null then do
            let s ← fmtNum2 max_eligible
            pure [DisplayAct.stMetric "Max Eligible Advance" ("UGX " ++ s)]
          else pure []
        let failed_criteria := jGetD fs "failed_criteria" (.arr [])
        let crit ← if failed_criteria.truthy then do
            let elems ← pyIter failed_criteria
            let hintSalary : List DisplayAct :=
              if !(jGet fs "salary_check").truthy then
                [.stInfo "• Increase your gross salary to at least UGX 200,000"]
              else []
            let hintAmount ← if !(jGet fs "advance_limit_check").truthy
                && max_eligible.truthy then do
                let s ← fmtNum2 max_eligible
                pure [DisplayAct.stInfo
                  ("• Reduce your requested advance amount to UGX " ++ s ++ " or less")]
              else pure []
            let hintFreq : List DisplayAct :=
              if !(jGet fs "pay_frequency_check").truthy then
                [.stInfo
                  "• Ensure your pay frequency is one of: Weekly, Bi-weekly, Semi-monthly, or Monthly"]
              else []
            pure (DisplayAct.stSubheader "❌ Issues to Address:" ::
              elems.map (fun c => DisplayAct.stError ("• " ++ pyStr c)) ++
              [DisplayAct.stSubheader "💡 How to Become Eligible:"] ++
              hintSalary ++ hintAmount ++ hintFreq)
          else pure []
        pure (col1 ++ col2 ++ crit)
    | _ => .error .nonDictGet

/- ### The structured `EligibilityDetails` response fragment -/

/-- The `EligibilityDetails` response fragment of the data model:
`{salary_check, pay_frequency_check, amount_check, advance_limit_check :
bool, max_eligible_advance : decimal or null, failed_criteria : ordered
sequence of string}`. -/
structure EligibilityDetails where
  salary_check : Bool
  pay_frequency_check : Bool
  amount_check : Bool
  advance_limit_check : Bool
  max_eligible_advance : Option ℚ
  failed_criteria : List String
  deriving DecidableEq

/-- Wire encoding of an `EligibilityDetails` value. -/
def EligibilityDetails.toJson (d : EligibilityDetails) : Json :=
  .obj [("salary_check", .bool d.salary_check),
        ("pay_frequency_check", .bool d.pay_frequency_check),
        ("amount_check", .bool d.amount_check),
        ("advance_limit_check", .bool d.advance_limit_check),
        ("max_eligible_advance",
          match d.max_eligible_advance with
          | some q => .num q
          | none => .null),
        ("failed_criteria", .arr (d.failed_criteria.map .str))]

/-- Truthiness of the `max_eligible_advance` field after decoding: present
and non-zero. -/
def EligibilityDetails.maxTruthy (d : EligibilityDetails) : Bool :=
  match d.max_eligible_advance with
  | some q => q != 0
  | none => false

/-- The three remediation-hint messages. -/
def hintSalaryMsg : String := "• Increase your gross salary to at least UGX 200,000"

/-- Amount-reduction hint for a given maximum. -/
def hintAmountMsg (q : ℚ) : String :=
  "• Reduce your requested advance amount to UGX " ++ fmtCommas2 q ++ " or less"

/-- Pay-frequency hint. -/
def hintFreqMsg : String :=
  "• Ensure your pay frequency is one of: Weekly, Bi-weekly, Semi-monthly, or Monthly"

/-- Closed form of the panel on a well-typed `EligibilityDetails` value. -/
def eligForm (d : EligibilityDetails) : List DisplayAct :=
  [.stSubheader "📋 Eligibility Criteria Check",
   if d.salary_check then .stSuccess "✅ Minimum salary requirement met"
   else .stError "❌ Minimum salary requirement not met",
   if d.pay_frequency_check then .stSuccess "✅ Valid pay frequency"
   else .stError "❌ Invalid pay frequency",
   if d.amount_check then .stSuccess "✅ Valid advance amount"
   else .stError "❌ Invalid advance amount",
   if d.advance_limit_check then .stSuccess "✅ Within advance limit"
   else .stError "❌ Exceeds maximum advance limit"] ++
  (match d.max_eligible_advance with
   | some q => [DisplayAct.stMetric "Max Eligible Advance" ("UGX " ++ fmtCommas2 q)]
   | none => []) ++
  (if d.failed_criteria.isEmpty then [] else
    DisplayAct.stSubheader "❌ Issues to Address:" ::
      d.failed_criteria.map (fun c => DisplayAct.stError ("• " ++ c)) ++
      [DisplayAct.stSubheader "💡 How to Become Eligible:"] ++
      (if d.salary_check then [] else [DisplayAct.stInfo hintSalaryMsg]) ++
      (if !d.advance_limit_check && d.maxTruthy then
        [DisplayAct.stInfo (hintAmountMsg (d.max_eligible_advance.getD 0))]
      else []) ++
      (if d.pay_frequency_check then [] else [DisplayAct.stInfo hintFreqMsg]))

/-- The panel on an encoded `EligibilityDetails` value never raises and
computes `eligForm`. -/
theorem display_eligibility_details_toJson (d : EligibilityDetails) :
    display_eligibility_details d.toJson = .ok (eligForm d) := by
  rcases d with ⟨sc, pf, ac, al, me, fc⟩
  simp only [display_eligibility_details, EligibilityDetails.toJson, eligForm,
    EligibilityDetails.maxTruthy, jGet, jGetD, List.lookup, Json.truthy,
    hintSalaryMsg, hintAmountMsg, hintFreqMsg]
  rcases me with _ | q <;> rcases fc with _ | ⟨c, cs⟩ <;>
    simp [fmtNum2, pyIter, pyStr, Bind.bind, Except.bind, pure, Except.pure,
      Json.truthy, List.map] <;>
    cases sc <;> cases pf <;> cases ac <;> cases al <;>
    simp [fmtNum2, Bind.bind, Except.bind, pure, Except.pure] <;>
    rcases eq_or_ne q 0 with hq | hq <;> simp [hq]

/- ### String-prefix helpers for message distinctness -/

/-- Taking at most the length of the left operand ignores the right one. -/
theorem data_take_append (a b : String) (n : Nat) (h : n ≤ a.data.length) :
    (a ++ b).data.take n = a.data.take n := by
  rw [String.data_append]; exact List.take_append_of_le_length h

/-- Strings whose first `n` characters differ are different. -/
theorem ne_of_take_ne (s t : String) (n : Nat)
    (h : s.data.take n ≠ t.data.take n) : s ≠ t :=
  fun hc => h (by rw [hc])

/-- The amount hint always starts `• R...`. -/
theorem hintAmount_take (q : ℚ) :
    (hintAmountMsg q).data.take 3 = ['•', ' ', 'R'] := by
  have h1 : (3 : Nat) ≤
      ("• Reduce your requested advance amount to UGX " ++ fmtCommas2 q).data.length := by
    rw [String.data_append, List.length_append]
    have h2 : (3 : Nat) ≤ "• Reduce your requested advance amount to UGX ".data.length := by
      decide
    omega
  unfold hintAmountMsg
  rw [data_take_append _ _ _ h1, data_take_append _ _ _ (by decide)]
  decide

/-- The amount hint is never the salary hint. -/
theorem hintAmount_ne_salary (q : ℚ) : hintAmountMsg q ≠ hintSalaryMsg :=
  ne_of_take_ne _ _ 3 (by rw [hintAmount_take]; decide)

/-- The salary hint is never the amount hint. -/
theorem hintSalary_ne_amount (q : ℚ) : hintSalaryMsg ≠ hintAmountMsg q :=
  fun h => hintAmount_ne_salary q h.symm

/-- The amount hint is never the frequency hint. -/
theorem hintAmount_ne_freq (q : ℚ) : hintAmountMsg q ≠ hintFreqMsg :=
  ne_of_take_ne _ _ 3 (by rw [hintAmount_take]; decide)

/-- The frequency hint is never the amount hint. -/
theorem hintFreq_ne_amount (q : ℚ) : hintFreqMsg ≠ hintAmountMsg q :=
  fun h => hintAmount_ne_freq q h.symm

/-- The salary and frequency hints differ. -/
theorem hintSalary_ne_freq : hintSalaryMsg ≠ hintFreqMsg := by decide

/-- The frequency and salary hints differ. -/
theorem hintFreq_ne_salary : hintFreqMsg ≠ hintSalaryMsg := by decide

/-- Bulleted criteria lines always start `• `. -/
theorem bullet_take (c : String) : (("• " ++ c) : String).data.take 2 = ['•', ' '] := by
  rw [data_take_append _ _ _ (by decide)]; decide

/-- The acts emitted by the panel on an encoded `EligibilityDetails` value
(the encoded value never raises, so the error branch is vacuous). -/
def eligActsOf (d : EligibilityDetails) : List DisplayAct :=
  match display_eligibility_details d.toJson with
  | .ok acts => acts
  | .error _ => []

/-- `eligActsOf` is `eligForm`. -/
theorem eligActsOf_eq (d : EligibilityDetails) : eligActsOf d = eligForm d := by
  unfold eligActsOf
  rw [display_eligibility_details_toJson]

/- ### Membership helpers -/

/-- Membership in an `if _ then [] else l` list implies membership in `l`. -/
theorem mem_ite_nil {α : Type} (P : Prop) [Decidable P] (l : List α) (a : α)
    (h : a ∈ if P then [] else l) : a ∈ l := by
  split at h
  · cases h
  · exact h

/-- Membership in an `if`-guarded singleton. -/
theorem mem_ite_singleton {α : Type} (P : Prop) [Decidable P] (a x : α) :
    (a ∈ if P then [x] else []) ↔ (P ∧ a = x) := by
  split <;> simp [*]

/-- The bulleted error lines (lines starting `• `) of an act sequence, in
order: exactly the failed-criteria lines of the panel. -/
def extractBullets (acts : List DisplayAct) : List String :=
  acts.filterMap (fun a =>
    match a with
    | .stError s => if s.data.take 2 = ['•', ' '] then some s else none
    | _ => none)

/-- `extractBullets` on the empty sequence. -/
theorem extractBullets_nil : extractBullets [] = [] := rfl

/-- `extractBullets` distributes over append. -/
theorem extractBullets_append (l1 l2 : List DisplayAct) :
    extractBullets (l1 ++ l2) = extractBullets l1 ++ extractBullets l2 :=
  List.filterMap_append l1 l2 _

/-- `extractBullets` on an error line. -/
theorem extractBullets_err (s : String) (t : List DisplayAct) :
    extractBullets (DisplayAct.stError s :: t) =
      if s.data.take 2 = ['•', ' '] then s :: extractBullets t else extractBullets t := by
  by_cases h : s.data.take 2 = ['•', ' '] <;>
    simp [extractBullets, List.filterMap_cons, h]

/-- `extractBullets` skips success lines. -/
theorem extractBullets_success (s : String) (t : List DisplayAct) :
    extractBullets (DisplayAct.stSuccess s :: t) = extractBullets t := rfl

/-- `extractBullets` skips info lines. -/
theorem extractBullets_info (s : String) (t : List DisplayAct) :
    extractBullets (DisplayAct.stInfo s :: t) = extractBullets t := rfl

/-- `extractBullets` skips subheaders. -/
theorem extractBullets_subheader (s : String) (t : List DisplayAct) :
    extractBullets (DisplayAct.stSubheader s :: t) = extractBullets t := rfl

/-- `extractBullets` skips metrics. -/
theorem extractBullets_metric (a b : String) (t : List DisplayAct) :
    extractBullets (DisplayAct.stMetric a b :: t) = extractBullets t := rfl

/-- `extractBullets` commutes with `if`. -/
theorem extractBullets_ite (P : Prop) [Decidable P] (A B : List DisplayAct) :
    extractBullets (if P then A else B) =
      if P then extractBullets A else extractBullets B :=
  apply_ite extractBullets P A B

/-- `extractBullets` recovers a bulleted criteria block verbatim. -/
theorem extractBullets_map_bullet (l : List String) :
    extractBullets (l.map (fun c => DisplayAct.stError ("• " ++ c))) =
      l.map (fun c => "• " ++ c) := by
  induction l with
  | nil => rfl
  | cons x xs ih => simp [extractBullets_err, bullet_take, ih]

/- ### Claims C1, C5, C9: the eligibility panel -/

/-- C1, counterexample: the claim says the salary remediation hint is shown
iff `salary_check` is false, regardless of `failed_criteria`.  On the
details value with `salary_check = false` and empty `failed_criteria` the
code shows no hint at all (the whole hint block is nested under
`if failed_criteria:`), so the claimed equivalence is false. -/
theorem c1_hint_iff_counterexample :
    ¬ ((DisplayAct.stInfo hintSalaryMsg ∈
          eligActsOf ⟨false, true, true, true, none, []⟩) ↔
        (⟨false, true, true, true, none, []⟩ : EligibilityDetails).salary_check = false) := by
  decide

/-- C1, amended: each remediation hint is shown iff `failed_criteria` is
non-empty AND its triggering boolean is false; the amount hint additionally
requires `max_eligible_advance` to be truthy (present and non-zero).  Within
the hint block the three hints remain independent. -/
theorem c1_hints_shown_iff (d : EligibilityDetails) :
    (DisplayAct.stInfo hintSalaryMsg ∈ eligActsOf d ↔
      (d.failed_criteria ≠ [] ∧ d.salary_check = false)) ∧
    (DisplayAct.stInfo hintFreqMsg ∈ eligActsOf d ↔
      (d.failed_criteria ≠ [] ∧ d.pay_frequency_check = false)) ∧
    (DisplayAct.stInfo (hintAmountMsg (d.max_eligible_advance.getD 0)) ∈ eligActsOf d ↔
      (d.failed_criteria ≠ [] ∧ d.advance_limit_check = false ∧ d.maxTruthy = true)) := by
  rw [eligActsOf_eq]
  rcases d with ⟨sc, pf, ac, al, me, fc⟩
  simp only [eligForm, EligibilityDetails.maxTruthy]
  rcases me with _ | q <;> rcases fc with _ | ⟨c, cs⟩ <;>
    cases sc <;> cases pf <;> cases ac <;> cases al <;>
    simp [hintAmount_ne_salary, hintSalary_ne_amount, hintAmount_ne_freq,
      hintFreq_ne_amount, hintSalary_ne_freq, hintFreq_ne_salary]

/-- C5: on every (non-absent, hence truthy) encoded `EligibilityDetails`
value the panel displays, right after the section subheader, all four boolean
checks in order — a positive indicator when the check is true and the fixed
negative label when it is false — and the remainder of the output contains no
further positive indicator and no error line other than bulleted
failed-criteria lines, so exactly the corresponding indicator appears for
each of the 16 combinations. -/
theorem c5_four_indicators_always_shown (d : EligibilityDetails) :
    ∃ rest,
      display_eligibility_details d.toJson = .ok
        (DisplayAct.stSubheader "📋 Eligibility Criteria Check" ::
         (if d.salary_check then DisplayAct.stSuccess "✅ Minimum salary requirement met"
          else DisplayAct.stError "❌ Minimum salary requirement not met") ::
         (if d.pay_frequency_check then DisplayAct.stSuccess "✅ Valid pay frequency"
          else DisplayAct.stError "❌ Invalid pay frequency") ::
         (if d.amount_check then DisplayAct.stSuccess "✅ Valid advance amount"
          else DisplayAct.stError "❌ Invalid advance amount") ::
         (if d.advance_limit_check then DisplayAct.stSuccess "✅ Within advance limit"
          else DisplayAct.stError "❌ Exceeds maximum advance limit") :: rest) ∧
      (∀ s, DisplayAct.stSuccess s ∉ rest) ∧
      (∀ s, DisplayAct.stError s ∈ rest → s.data.take 2 = ['•', ' ']) := by
  refine ⟨(match d.max_eligible_advance with
      | some q => [DisplayAct.stMetric "Max Eligible Advance" ("UGX " ++ fmtCommas2 q)]
      | none => []) ++
    (if d.failed_criteria.isEmpty then [] else
      DisplayAct.stSubheader "❌ Issues to Address:" ::
        d.failed_criteria.map (fun c => DisplayAct.stError ("• " ++ c)) ++
        [DisplayAct.stSubheader "💡 How to Become Eligible:"] ++
        (if d.salary_check then [] else [DisplayAct.stInfo hintSalaryMsg]) ++
        (if !d.advance_limit_check && d.maxTruthy then
          [DisplayAct.stInfo (hintAmountMsg (d.max_eligible_advance.getD 0))]
        else []) ++
        (if d.pay_frequency_check then [] else [DisplayAct.stInfo hintFreqMsg])),
    ?_, ?_, ?_⟩
  · rw [display_eligibility_details_toJson]; rfl
  · intro s hs
    rcases List.mem_append.1 hs with h | h
    · rcases hm : d.max_eligible_advance with _ | q <;> simp [hm] at h
    · have h' := mem_ite_nil _ _ _ h
      simp [mem_ite_singleton] at h'
  · intro s hs
    rcases List.mem_append.1 hs with h | h
    · rcases hm : d.max_eligible_advance with _ | q <;> simp [hm] at h
    · have h' := mem_ite_nil _ _ _ h
      simp [mem_ite_singleton] at h'
      obtain ⟨c', hc', hEq⟩ := h'
      rw [← hEq]
      exact bullet_take c'

/-- C9: the panel's bulleted error lines are exactly the entries of
`failed_criteria`, each prefixed `• `, in the backend-supplied order —
neither sorted nor deduplicated — and nothing is listed when the sequence is
empty. -/
theorem c9_failed_criteria_in_order (d : EligibilityDetails) :
    extractBullets (eligActsOf d) = d.failed_criteria.map (fun c => "• " ++ c) := by
  rw [eligActsOf_eq]
  rcases d with ⟨sc, pf, ac, al, me, fc⟩
  simp only [eligForm, EligibilityDetails.maxTruthy]
  have hne1 : ¬(("❌ Minimum salary requirement not met" : String).data.take 2 =
      ['•', ' ']) := by decide
  have hne2 : ¬(("❌ Invalid pay frequency" : String).data.take 2 = ['•', ' ']) := by decide
  have hne3 : ¬(("❌ Invalid advance amount" : String).data.take 2 = ['•', ' ']) := by decide
  have hne4 : ¬(("❌ Exceeds maximum advance limit" : String).data.take 2 =
      ['•', ' ']) := by decide
  rcases me with _ | q <;>
    rcases fc with _ | ⟨c0, cs⟩ <;>
    cases sc <;> cases pf <;> cases ac <;> cases al <;>
    simp [extractBullets_append, extractBullets_err, extractBullets_success,
      extractBullets_info, extractBullets_subheader, extractBullets_metric,
      extractBullets_ite, extractBullets_map_bullet, extractBullets_nil,
      hne1, hne2, hne3, hne4, bullet_take]

/- ### Claims C2, C3, C10: client adapter and result renderer -/

/-- A string with a non-empty prefix is non-empty. -/
theorem str_app_ne_empty (a b : String) (h : a.data ≠ []) : a ++ b ≠ "" := by
  intro hc
  have hd := congrArg String.data hc
  rw [String.data_append] at hd
  exact h (List.append_eq_nil.1 hd).1

/-- The connection-failure message starts with `C`. -/
theorem connMsg_take :
    (("Could not connect to backend at " ++ FASTAPI_BACKEND_URL) : String).data.take 1 =
      ['C'] := by
  rw [data_take_append _ _ _ (by decide)]; decide

/-- The request-failure message starts with `R`. -/
theorem reqMsg_take (d : String) :
    (("Request error: " ++ d) : String).data.take 1 = ['R'] := by
  rw [data_take_append _ _ _ (by decide)]; decide

/-- The catch-all message starts with `U`. -/
theorem unexpMsg_take (d : String) :
    (("Unexpected error: " ++ d) : String).data.take 1 = ['U'] := by
  rw [data_take_append _ _ _ (by decide)]; decide

/-- C2: for every endpoint and payload, `make_request` returns exactly one of
a decoded JSON value or a non-empty error string (never both, never
neither), issues exactly one request with no retry, and the three exception
classes produce pairwise-distinct error strings whatever their detail text. -/
theorem c2_make_request_contract (endpoint : String) (payload : Json)
    (transport : String → Json → HttpOutcome) :
    ((∃ j, (make_request endpoint payload transport).1 = (some j, none)) ∨
      (∃ s, (make_request endpoint payload transport).1 = (none, some s) ∧ s ≠ "")) ∧
    (make_request endpoint payload transport).2 = [(endpoint, payload)] ∧
    (∀ d d' : String,
      (make_request endpoint payload (fun _ _ => .connectionError)).1.2 ≠
        (make_request endpoint payload (fun _ _ => .requestError d)).1.2 ∧
      (make_request endpoint payload (fun _ _ => .connectionError)).1.2 ≠
        (make_request endpoint payload (fun _ _ => .unexpectedError d)).1.2 ∧
      (make_request endpoint payload (fun _ _ => .requestError d)).1.2 ≠
        (make_request endpoint payload (fun _ _ => .unexpectedError d')).1.2) := by
  refine ⟨?_, by simp [make_request], ?_⟩
  · cases h : transport endpoint payload with
    | ok j => exact Or.inl ⟨j, by simp [make_request, h]⟩
    | connectionError =>
        exact Or.inr ⟨"Could not connect to backend at " ++ FASTAPI_BACKEND_URL,
          by simp [make_request, h], str_app_ne_empty _ _ (by decide)⟩
    | requestError d =>
        exact Or.inr ⟨"Request error: " ++ d, by simp [make_request, h],
          str_app_ne_empty _ _ (by decide)⟩
    | unexpectedError d =>
        exact Or.inr ⟨"Unexpected error: " ++ d, by simp [make_request, h],
          str_app_ne_empty _ _ (by decide)⟩
  · intro d d'
    refine ⟨?_, ?_, ?_⟩
    · intro hc
      simp only [make_request] at hc
      exact ne_of_take_ne _ _ 1
        (by rw [connMsg_take, reqMsg_take]; decide) (Option.some.inj hc)
    · intro hc
      simp only [make_request] at hc
      exact ne_of_take_ne _ _ 1
        (by rw [connMsg_take, unexpMsg_take]; decide) (Option.some.inj hc)
    · intro hc
      simp only [make_request] at hc
      exact ne_of_take_ne _ _ 1
        (by rw [reqMsg_take, unexpMsg_take]; decide) (Option.some.inj hc)

/-- C3: `display_result` is a pure gate.  A truthy error string is displayed
and nothing is returned; otherwise a truthy `error` field displays
`error_message` (with the default `Unknown error` exactly when the field is
absent, via `jGetD`) and returns nothing; otherwise the very same `result`
value is returned, unchanged. -/
theorem c3_display_result_gate (result : Option Json) (fs : List (String × Json))
    (s : String) :
    (s ≠ "" → display_result result (some s) = .ok ([.stError s], none)) ∧
    (∀ e, optTruthy e = false →
      ((jGet fs "error").truthy = true →
        display_result (some (.obj fs)) e = .ok
          ([.stError ("Error: " ++
              pyStr (jGetD fs "error_message" (.str "Unknown error")))], none)) ∧
      ((jGet fs "error").truthy = false →
        display_result (some (.obj fs)) e = .ok ([], some (.obj fs)))) := by
  refine ⟨?_, ?_⟩
  · intro hs
    simp [display_result, optTruthy, hs]
  · intro e he
    refine ⟨?_, ?_⟩ <;> intro ht <;> simp [display_result, he, ht]

/-- C3 witness: the three branches at concrete inputs. -/
theorem c3_display_result_gate_witness :
    display_result none (some "boom") = .ok ([.stError "boom"], none) ∧
    display_result (some (.obj [("error", .bool true)])) none = .ok
      ([.stError ("Error: " ++
          pyStr (jGetD [("error", .bool true)] "error_message" (.str "Unknown error")))],
        none) ∧
    display_result (some (.obj [])) none = .ok ([], some (.obj [])) :=
  ⟨(c3_display_result_gate none [] "boom").1 (by decide),
   ((c3_display_result_gate none [("error", .bool true)] "boom").2 none rfl).1 (by decide),
   ((c3_display_result_gate none [] "boom").2 none rfl).2 rfl⟩

/-- C10: `display_result` is partial at its interface — on `(none, none)` it
dereferences `None` and raises — but composed with `make_request` the
`None`-dereference is unreachable: whenever the result is `none` the error
string is a truthy string, so the crashing branch is never taken. -/
theorem c10_display_result_partial_but_composition_safe :
    display_result none none = .error .noneGet ∧
    ∀ (endpoint : String) (payload : Json) (transport : String → Json → HttpOutcome),
      display_result (make_request endpoint payload transport).1.1
        (make_request endpoint payload transport).1.2 ≠ .error .noneGet := by
  refine ⟨rfl, ?_⟩
  intro endpoint payload transport
  cases h : transport endpoint payload with
  | ok j =>
      simp only [make_request, h]
      cases j <;> simp [display_result, optTruthy]
      split <;> simp
  | connectionError =>
      have hne : ("Could not connect to backend at " ++ FASTAPI_BACKEND_URL) ≠ "" :=
        str_app_ne_empty _ _ (by decide)
      simp only [make_request, h]
      simp [display_result, optTruthy, hne]
  | requestError d =>
      have hne : ("Request error: " ++ d) ≠ "" := str_app_ne_empty _ _ (by decide)
      simp only [make_request, h]
      simp [display_result, optTruthy, hne]
  | unexpectedError d =>
      have hne : ("Unexpected error: " ++ d) ≠ "" := str_app_ne_empty _ _ (by decide)
      simp only [make_request, h]
      simp [display_result, optTruthy, hne]

/- ### pandas model (external collaborator, used by the loan flow) -/

/-- Modelled from the spec: `pd.to_datetime` parses `Payment_Date` as a date.
pandas is an out-of-scope collaborator, so the parsed date is represented as
a tagged wrapper around the raw value; no claim depends on its internals. -/
def pdToDatetime (j : Json) : Json := .obj [("pd_datetime", j)]

/-- Accumulate the keys of one row that were not seen yet (pandas column
inference for a list of dicts: first-appearance order). -/
def pdAddKeys (acc : List String) (row : List (String × Json)) : List String :=
  acc ++ (row.map Prod.fst).filter (fun k => !acc.contains k)

/-- Column order of `pd.DataFrame(list-of-dicts)`. -/
def pdColumns (rows : List (List (String × Json))) : List String :=
  rows.foldl pdAddKeys []

/-- One cell of the inferred frame: missing keys become NaN (here `.null`). -/
def cellOf (row : List (String × Json)) (c : String) : Json :=
  (List.lookup c row).getD .null

/-- A dataframe: column names plus aligned cell rows. -/
structure DataFrame where
  cols : List String
  rows : List (List Json)
  deriving DecidableEq

/-- `pd.DataFrame(list-of-dicts)`. -/
def pdDataFrame (rows : List (List (String × Json))) : DataFrame :=
  { cols := pdColumns rows,
    rows := rows.map (fun r => (pdColumns rows).map (cellOf r)) }

/-- Sequential first-failure map over `Except` (a Python `for` that can
raise). -/
def mapE {α β : Type} (f : α → Except CrashKind β) : List α → Except CrashKind (List β)
  | [] => .ok []
  | a :: xs =>
    match f a with
    | .error e => .error e
    | .ok b =>
      match mapE f xs with
      | .error e => .error e
      | .ok bs => .ok (b :: bs)

/-- `df[c] = df[c].apply(f)`: `KeyError` when the column is missing. -/
def mapColE (c : String) (f : Json → Except CrashKind Json) (df : DataFrame) :
    Except CrashKind DataFrame :=
  if c ∈ df.cols then
    match mapE (fun row =>
      match f (row.getD (df.cols.indexOf c) .null) with
      | .error e => .error e
      | .ok v => .ok (row.set (df.cols.indexOf c) v)) df.rows with
    | .error e => .error e
    | .ok rows2 => .ok { cols := df.cols, rows := rows2 }
  else .error .keyErr

/-- The five monetary columns reformatted for display. -/
def currency_cols : List String :=
  ["Beginning_Balance", "Monthly_Payment", "Interest_Paid", "Principal_Paid",
   "Ending_Balance"]

/-- `lambda x: f"UGX {x:,.2f}"` applied to one cell. -/
def currencyCell (v : Json) : Except CrashKind Json :=
  match fmtNum2 v with
  | .error e => .error e
  | .ok s => .ok (.str ("UGX " ++ s))

/-- The currency-formatting loop: for each listed column present in the
frame, replace each cell by the `UGX`-prefixed `:,.2f` string. -/
def applyCurrencyCols : List String → DataFrame → Except CrashKind DataFrame
  | [], df => .ok df
  | c :: cs, df =>
    if c ∈ df.cols then
      match mapColE c currencyCell df with
      | .error e => .error e
      | .ok df2 => applyCurrencyCols cs df2
    else applyCurrencyCols cs df

/-- `df.set_index(c)`: the index values and the remaining frame. -/
def pdSetIndex (c : String) (df : DataFrame) :
    Except CrashKind (List Json × DataFrame) :=
  if c ∈ df.cols then
    .ok (df.rows.map (fun r => r.getD (df.cols.indexOf c) .null),
      { cols := df.cols.eraseIdx (df.cols.indexOf c),
        rows := df.rows.map (fun r => r.eraseIdx (df.cols.indexOf c)) })
  else .error .keyErr

/-- Double every inner quote (CSV escaping). -/
def csvEscape (s : String) : String :=
  String.mk (s.data.foldr
    (fun ch acc => if ch = '"' then '"' :: '"' :: acc else ch :: acc) [])

/-- Minimal quoting: only fields containing a comma, quote or newline are
quoted (pandas `QUOTE_MINIMAL`). -/
def csvNeedsQuote (s : String) : Bool :=
  s.data.any (fun ch => ch == ',' || ch == '"' || ch == '\n')

/-- Quote a CSV field when needed. -/
def csvQuote (s : String) : String :=
  if csvNeedsQuote s then "\"" ++ csvEscape s ++ "\"" else s

/-- One CSV cell of the raw frame: NaN empty, numbers in plain decimal,
strings minimally quoted. -/
def csvCell : Json → String
  | .null => ""
  | .bool b => if b then "True" else "False"
  | .num q => numRender q
  | .str s => csvQuote s
  | j => csvQuote (pyStr j)

/-- `df.to_csv(index=False)`: a header row then one line per row, each
`\n`-terminated. -/
def pdToCsv (df : DataFrame) : String :=
  String.intercalate "," (df.cols.map csvQuote) ++ "\n" ++
    String.join (df.rows.map (fun r => String.intercalate "," (r.map csvCell) ++ "\n"))

/-- `pd.DataFrame(schedule)` is only fed a list of dicts by this program;
other shapes raise in this model. -/
def asRowsList : Json → Except CrashKind (List (List (String × Json)))
  | .arr elems => mapE (fun e =>
      match e with
      | Json.obj fs => .ok fs
      | _ => .error .pandasErr) elems
  | _ => .error .pandasErr

/- ### Advance flow -/

/-- The `calculate_advance` payload (note the nested `salary_advance`). -/
def advance_payload (employee_id : String) (gross_salary : ℚ) (pay_frequency : String)
    (requested_advance_amount : ℚ) : Json :=
  .obj [("gross_salary", .num gross_salary),
        ("pay_frequency", .str pay_frequency),
        ("employee_id", .str employee_id),
        ("salary_advance",
          .obj [("requested_advance_amount", .num requested_advance_amount)])]

/-- The advance flow's rendering after the gate passed with a truthy dict. -/
def render_advance (fs : List (String × Json)) : Except CrashKind (List DisplayAct) := do
  let eligActs ← display_eligibility_details (jGet fs "eligibility_details")
  let base := [DisplayAct.stMarkdown "---", DisplayAct.stSubheader "🎯 Final Result:"]
  if (jGet fs "advance_eligible").truthy then do
    let amt ← fmtNum2 (jGetD fs "approved_advance_amount" (.num 0))
    pure (eligActs ++ base ++
      [DisplayAct.stSuccess ("**Status:** " ++ pyStr (jGet fs "advance_message")),
       DisplayAct.stWrite ("**Approved Amount:** UGX " ++ amt),
       DisplayAct.stInfo "🎉 Your salary advance has been processed and recorded!",
       DisplayAct.stSubheader "📋 Next Steps:",
       DisplayAct.stWrite "1. Your advance will be disbursed within 24 hours",
       DisplayAct.stWrite "2. The amount will be deducted from your next salary",
       DisplayAct.stWrite ("3. Check the " ++ pyQuote ++ "All Recorded Loans" ++ pyQuote ++
         " section below to view details")])
  else
    pure (eligActs ++ base ++
      [DisplayAct.stWarning ("**Status:** " ++ pyStr (jGet fs "advance_message"))])

/-- The advance flow's submit handler: the issued requests and the emitted
acts (or the raised exception). -/
def advance_submit (employee_id : String) (gross_salary : ℚ) (pay_frequency : String)
    (requested_advance_amount : ℚ) (transport : String → Json → HttpOutcome) :
    List (String × Json) × Except CrashKind (List DisplayAct) :=
  if employee_id = "" then
    ([], .ok [.stError "Please enter your Employee ID."])
  else
    let r := make_request "calculate_advance"
      (advance_payload employee_id gross_salary pay_frequency requested_advance_amount)
      transport
    (r.2, do
      let gate ← display_result r.1.1 r.1.2
      match gate.2 with
      | some j =>
          if j.truthy then
            match j with
            | .obj fs => do
                let more ← render_advance fs
                pure (gate.1 ++ more)
            | _ => .error .nonDictGet
          else pure gate.1
      | none => pure gate.1)

/- ### Loan flow -/

/-- The `calculate_loan` payload. -/
def loan_payload (employee_id : String) (loan_amount interest_rate : ℚ)
    (loan_term_months : ℤ) : Json :=
  .obj [("employee_id", .str employee_id),
        ("loan_amount", .num loan_amount),
        ("annual_interest_rate", .num interest_rate),
        ("loan_term_months", .num (loan_term_months : ℚ))]

/-- The amortization-schedule block: formatted table plus CSV download. -/
def render_schedule (employee_id : String) (loan_term_months : ℤ) (schedule : Json) :
    Except CrashKind (List DisplayAct) := do
  let rows ← asRowsList schedule
  let df1 ← mapColE "Payment_Date" (fun v => .ok (pdToDatetime v)) (pdDataFrame rows)
  let df2 ← applyCurrencyCols currency_cols df1
  let ix ← pdSetIndex "Payment_Number" df2
  pure [DisplayAct.stWrite "### 📊 Amortization Schedule",
        DisplayAct.stDataframe "Payment_Number" ix.1 ix.2.cols ix.2.rows,
        DisplayAct.stDownloadButton "📥 Download Schedule as CSV"
          (pdToCsv (pdDataFrame rows)).toUTF8.toList
          ("amortization_schedule_" ++ employee_id ++ "_" ++
            toString loan_term_months ++ "months.csv") "text/csv"]

/-- The loan flow's rendering after the gate passed and `loan_requested` was
truthy. -/
def render_loan (employee_id : String) (loan_amount interest_rate : ℚ)
    (loan_term_months : ℤ) (fs : List (String × Json)) :
    Except CrashKind (List DisplayAct) := do
  let head := [DisplayAct.stSubheader "Personal Loan Result:",
               DisplayAct.stSuccess "🎉 Loan calculation successful!",
               DisplayAct.stMetric "Loan Amount" ("UGX " ++ numRender loan_amount),
               DisplayAct.stMetric "Interest Rate" (fmt1 (interest_rate * 100) ++ "%"),
               DisplayAct.stMetric "Loan Term" (toString loan_term_months ++ " months")]
  let tot ← fmtNum2 (jGetD fs "loan_total_repayable_amount" (.num 0))
  let w := DisplayAct.stWrite ("**Total Repayable:** UGX " ++ tot)
  let schedule := jGet fs "loan_amortization_schedule"
  if schedule.truthy then do
    let schedActs ← render_schedule employee_id loan_term_months schedule
    pure (head ++ [w] ++ schedActs)
  else
    pure (head ++ [w, DisplayAct.stInfo "No amortization schedule available."])

/-- The loan flow's submit handler (the slider's percentage is divided by 100
before the payload is built). -/
def loan_submit (employee_id : String) (loan_amount : ℚ) (interest_pct : ℚ)
    (loan_term_months : ℤ) (transport : String → Json → HttpOutcome) :
    List (String × Json) × Except CrashKind (List DisplayAct) :=
  if employee_id = "" then
    ([], .ok [.stError "Please enter your Employee ID."])
  else
    let r := make_request "calculate_loan"
      (loan_payload employee_id loan_amount (interest_pct / 100) loan_term_months)
      transport
    (r.2, do
      let gate ← display_result r.1.1 r.1.2
      match gate.2 with
      | some j =>
          if j.truthy then
            match j with
            | .obj fs =>
                if (jGet fs "loan_requested").truthy then do
                  let more ← render_loan employee_id loan_amount (interest_pct / 100)
                    loan_term_months fs
                  pure (gate.1 ++ more)
                else pure gate.1
            | _ => .error .nonDictGet
          else pure gate.1
      | none => pure gate.1)

/- ### Claims C4, C6, C7: validation gate and loan flow -/

/-- `.get` on the empty dict yields `None`. -/
theorem jGet_nil (k : String) : jGet [] k = .null := rfl

/-- Truthiness of a decoded JSON object. -/
theorem obj_truthy (fs : List (String × Json)) :
    (Json.obj fs).truthy = !fs.isEmpty := rfl

/-- C4: in both flows, submitting with an empty employee ID shows exactly the
validation error and issues no request; with a non-empty employee ID exactly
one request to the flow's endpoint is issued. -/
theorem c4_empty_employee_id_no_network (employee_id : String)
    (gross_salary requested loan_amount interest_pct : ℚ)
    (pay_frequency : String) (loan_term_months : ℤ)
    (transport : String → Json → HttpOutcome) :
    (advance_submit "" gross_salary pay_frequency requested transport =
      ([], .ok [.stError "Please enter your Employee ID."])) ∧
    (loan_submit "" loan_amount interest_pct loan_term_months transport =
      ([], .ok [.stError "Please enter your Employee ID."])) ∧
    (employee_id ≠ "" →
      (advance_submit employee_id gross_salary pay_frequency requested transport).1 =
        [("calculate_advance",
          advance_payload employee_id gross_salary pay_frequency requested)] ∧
      (loan_submit employee_id loan_amount interest_pct loan_term_months transport).1 =
        [("calculate_loan",
          loan_payload employee_id loan_amount (interest_pct / 100) loan_term_months)]) := by
  refine ⟨by simp [advance_submit], by simp [loan_submit], ?_⟩
  intro h
  exact ⟨by simp [advance_submit, make_request, h],
    by simp [loan_submit, make_request, h]⟩

/-- C4 witness: both flows at concrete inputs. -/
theorem c4_empty_employee_id_no_network_witness :
    (("EMP001" : String) ≠ "") ∧
    ((advance_submit "" 3000000 "Monthly" 500000 (fun _ _ => .ok .null) =
       ([], .ok [.stError "Please enter your Employee ID."])) ∧
     (loan_submit "" 1000000 7 12 (fun _ _ => .ok .null) =
       ([], .ok [.stError "Please enter your Employee ID."])) ∧
     ((advance_submit "EMP001" 3000000 "Monthly" 500000 (fun _ _ => .ok .null)).1 =
        [("calculate_advance", advance_payload "EMP001" 3000000 "Monthly" 500000)] ∧
      (loan_submit "EMP001" 1000000 7 12 (fun _ _ => .ok .null)).1 =
        [("calculate_loan", loan_payload "EMP001" 1000000 ((7 : ℚ) / 100) 12)])) := by
  refine ⟨by decide, ?_⟩
  have h := c4_empty_employee_id_no_network "EMP001" 3000000 500000 1000000 7
    "Monthly" 12 (fun _ _ => .ok .null)
  exact ⟨h.1, h.2.1, h.2.2 (by decide)⟩

/-- C6: after a successful non-error response, the loan summary block is
rendered only when `loan_requested` is truthy (otherwise nothing is
rendered past the gate), and when `loan_requested` is truthy but the
schedule is absent or empty the flow shows the metrics, the total (0-default
via `jGetD`) and an informational — not error — message. -/
theorem c6_loan_requested_gate (employee_id : String) (loan_amount interest_pct : ℚ)
    (loan_term_months : ℤ) (fs : List (String × Json)) (h : employee_id ≠ "")
    (herr : (jGet fs "error").truthy = false) :
    ((jGet fs "loan_requested").truthy = false →
      (loan_submit employee_id loan_amount interest_pct loan_term_months
        (fun _ _ => .ok (.obj fs))).2 = .ok []) ∧
    (∀ q : ℚ, (jGet fs "loan_requested").truthy = true →
      jGetD fs "loan_total_repayable_amount" (.num 0) = .num q →
      (jGet fs "loan_amortization_schedule").truthy = false →
      (loan_submit employee_id loan_amount interest_pct loan_term_months
        (fun _ _ => .ok (.obj fs))).2 = .ok
        [DisplayAct.stSubheader "Personal Loan Result:",
         DisplayAct.stSuccess "🎉 Loan calculation successful!",
         DisplayAct.stMetric "Loan Amount" ("UGX " ++ numRender loan_amount),
         DisplayAct.stMetric "Interest Rate" (fmt1 (interest_pct / 100 * 100) ++ "%"),
         DisplayAct.stMetric "Loan Term" (toString loan_term_months ++ " months"),
         DisplayAct.stWrite ("**Total Repayable:** UGX " ++ fmtCommas2 q),
         DisplayAct.stInfo "No amortization schedule available."]) := by
  constructor
  · intro hreq
    simp [loan_submit, make_request, display_result, h, herr, hreq, optTruthy,
      obj_truthy, Bind.bind, Except.bind, pure, Except.pure]
  · intro q hreq htot hsched
    have hfs : fs.isEmpty = false := by
      rcases fs with _ | ⟨f0, fs'⟩
      · rw [jGet_nil] at hreq; simp [Json.truthy] at hreq
      · rfl
    simp [loan_submit, make_request, display_result, h, herr, hreq, htot, hsched,
      hfs, optTruthy, obj_truthy, render_loan, render_schedule, fmtNum2,
      Bind.bind, Except.bind, pure, Except.pure]

/-- C6 witness: a truthy and a falsy `loan_requested` response, concretely. -/
theorem c6_loan_requested_gate_witness :
    (("EMP001" : String) ≠ "" ∧
     (jGet [("loan_requested", Json.bool true),
            ("loan_total_repayable_amount", Json.num 1200000)] "error").truthy = false ∧
     (jGet [("loan_requested", Json.bool true),
            ("loan_total_repayable_amount", Json.num 1200000)]
        "loan_requested").truthy = true ∧
     jGetD [("loan_requested", Json.bool true),
            ("loan_total_repayable_amount", Json.num 1200000)]
        "loan_total_repayable_amount" (.num 0) = .num 1200000 ∧
     (jGet [("loan_requested", Json.bool true),
            ("loan_total_repayable_amount", Json.num 1200000)]
        "loan_amortization_schedule").truthy = false) ∧
    (loan_submit "EMP001" 1000000 7 12
      (fun _ _ => .ok (.obj [("loan_requested", Json.bool false)]))).2 = .ok [] ∧
    (loan_submit "EMP001" 1000000 7 12
      (fun _ _ => .ok (.obj [("loan_requested", Json.bool true),
        ("loan_total_repayable_amount", Json.num 1200000)]))).2 = .ok
      [DisplayAct.stSubheader "Personal Loan Result:",
       DisplayAct.stSuccess "🎉 Loan calculation successful!",
       DisplayAct.stMetric "Loan Amount" ("UGX " ++ numRender 1000000),
       DisplayAct.stMetric "Interest Rate" (fmt1 ((7 : ℚ) / 100 * 100) ++ "%"),
       DisplayAct.stMetric "Loan Term" (toString (12 : ℤ) ++ " months"),
       DisplayAct.stWrite ("**Total Repayable:** UGX " ++ fmtCommas2 1200000),
       DisplayAct.stInfo "No amortization schedule available."] :=
  ⟨⟨by decide, by decide, by decide, rfl, by decide⟩,
   (c6_loan_requested_gate "EMP001" 1000000 7 12 [("loan_requested", Json.bool false)]
      (by decide) (by decide)).1 (by decide),
   (c6_loan_requested_gate "EMP001" 1000000 7 12
      [("loan_requested", Json.bool true), ("loan_total_repayable_amount", Json.num 1200000)]
      (by decide) (by decide)).2 1200000 (by decide) rfl (by decide)⟩

/-- C7: the slider's percentage in `[0, 25]` is divided by 100 and the
payload's `annual_interest_rate` field carries exactly that fraction, which
lies in `[0, 0.25]`. -/
theorem c7_interest_rate_scaled (employee_id : String) (loan_amount interest_pct : ℚ)
    (loan_term_months : ℤ) (transport : String → Json → HttpOutcome)
    (h : employee_id ≠ "") (hlo : 0 ≤ interest_pct) (hhi : interest_pct ≤ 25) :
    (loan_submit employee_id loan_amount interest_pct loan_term_months transport).1 =
      [("calculate_loan",
        Json.obj [("employee_id", .str employee_id),
                  ("loan_amount", .num loan_amount),
                  ("annual_interest_rate", .num (interest_pct / 100)),
                  ("loan_term_months", .num (loan_term_months : ℚ))])] ∧
    0 ≤ interest_pct / 100 ∧ interest_pct / 100 ≤ 1 / 4 := by
  refine ⟨by simp [loan_submit, make_request, loan_payload, h], ?_, ?_⟩
  · positivity
  · linarith

/-- C7 witness: at 7.0 percent the transmitted fraction is exactly `0.07`. -/
theorem c7_interest_rate_scaled_witness :
    (("EMP001" : String) ≠ "" ∧ (0 : ℚ) ≤ 7 ∧ (7 : ℚ) ≤ 25) ∧
    ((7 : ℚ) / 100 = 0.07) ∧
    ((loan_submit "EMP001" 1000000 7 12 (fun _ _ => .ok .null)).1 =
      [("calculate_loan",
        Json.obj [("employee_id", .str "EMP001"),
                  ("loan_amount", .num 1000000),
                  ("annual_interest_rate", .num ((7 : ℚ) / 100)),
                  ("loan_term_months", .num ((12 : ℤ) : ℚ))])] ∧
      0 ≤ (7 : ℚ) / 100 ∧ (7 : ℚ) / 100 ≤ 1 / 4) :=
  ⟨⟨by decide, by norm_num, by norm_num⟩, by norm_num,
    c7_interest_rate_scaled "EMP001" 1000000 7 12 (fun _ _ => .ok .null)
      (by decide) (by norm_num) (by norm_num)⟩

/- ### Claim C8: the amortization schedule table and CSV artifact -/

/-- The `AmortizationRow` response fragment of the data model:
`{Payment_Number : integer, Payment_Date : date (wire string),
Beginning_Balance, Monthly_Payment, Interest_Paid, Principal_Paid,
Ending_Balance : decimals}`. -/
structure AmortizationRow where
  paymentNumber : ℤ
  paymentDate : String
  beginningBalance : ℚ
  monthlyPayment : ℚ
  interestPaid : ℚ
  principalPaid : ℚ
  endingBalance : ℚ
  deriving DecidableEq

/-- Wire encoding of one amortization row. -/
def toRowFields (r : AmortizationRow) : List (String × Json) :=
  [("Payment_Number", .num r.paymentNumber),
   ("Payment_Date", .str r.paymentDate),
   ("Beginning_Balance", .num r.beginningBalance),
   ("Monthly_Payment", .num r.monthlyPayment),
   ("Interest_Paid", .num r.interestPaid),
   ("Principal_Paid", .num r.principalPaid),
   ("Ending_Balance", .num r.endingBalance)]

/-- The inferred column order of an encoded schedule. -/
def amortCols : List String :=
  ["Payment_Number", "Payment_Date", "Beginning_Balance", "Monthly_Payment",
   "Interest_Paid", "Principal_Paid", "Ending_Balance"]

/-- The raw cells of one row, in column order. -/
def rawCells (r : AmortizationRow) : List Json :=
  [.num r.paymentNumber, .str r.paymentDate, .num r.beginningBalance,
   .num r.monthlyPayment, .num r.interestPaid, .num r.principalPaid,
   .num r.endingBalance]

/-- The cells after the `Payment_Date` parse. -/
def dateCells (r : AmortizationRow) : List Json :=
  [.num r.paymentNumber, pdToDatetime (.str r.paymentDate), .num r.beginningBalance,
   .num r.monthlyPayment, .num r.interestPaid, .num r.principalPaid,
   .num r.endingBalance]

/-- The cells after the five monetary columns are currency-formatted. -/
def fmtCells (r : AmortizationRow) : List Json :=
  [.num r.paymentNumber, pdToDatetime (.str r.paymentDate),
   .str ("UGX " ++ fmtCommas2 r.beginningBalance),
   .str ("UGX " ++ fmtCommas2 r.monthlyPayment),
   .str ("UGX " ++ fmtCommas2 r.interestPaid),
   .str ("UGX " ++ fmtCommas2 r.principalPaid),
   .str ("UGX " ++ fmtCommas2 r.endingBalance)]

/-- The on-screen cells after `Payment_Number` becomes the index. -/
def displayCells (r : AmortizationRow) : List Json :=
  [pdToDatetime (.str r.paymentDate),
   .str ("UGX " ++ fmtCommas2 r.beginningBalance),
   .str ("UGX " ++ fmtCommas2 r.monthlyPayment),
   .str ("UGX " ++ fmtCommas2 r.interestPaid),
   .str ("UGX " ++ fmtCommas2 r.principalPaid),
   .str ("UGX " ++ fmtCommas2 r.endingBalance)]

/-- One raw CSV line of the exported artifact: the unformatted decimal
values, never the `UGX`-prefixed display strings. -/
def csvLine (r : AmortizationRow) : String :=
  numRender (r.paymentNumber : ℚ) ++ "," ++ csvQuote r.paymentDate ++ "," ++
    numRender r.beginningBalance ++ "," ++ numRender r.monthlyPayment ++ "," ++
    numRender r.interestPaid ++ "," ++ numRender r.principalPaid ++ "," ++
    numRender r.endingBalance ++ "\n"

/-- The CSV header row. -/
def csvHeader : String :=
  "Payment_Number,Payment_Date,Beginning_Balance,Monthly_Payment,Interest_Paid,Principal_Paid,Ending_Balance\n"

/-- `mapE` over encoded elements that never raise. -/
theorem mapE_map {α β γ : Type} (g : β → Except CrashKind γ) (f : α → β)
    (h : α → γ) (hg : ∀ a, g (f a) = .ok (h a)) (l : List α) :
    mapE g (l.map f) = .ok (l.map h) := by
  induction l with
  | nil => rfl
  | cons x xs ih => simp [mapE, hg, ih]

/-- An encoded schedule is a list of dicts, so `pd.DataFrame` accepts it. -/
theorem asRowsList_amort (rows : List AmortizationRow) :
    asRowsList (.arr (rows.map (fun r => .obj (toRowFields r)))) =
      .ok (rows.map toRowFields) := by
  unfold asRowsList
  exact mapE_map
    (fun e => match e with
      | Json.obj fs => .ok fs
      | _ => .error .pandasErr)
    (fun r => .obj (toRowFields r)) toRowFields (fun r => rfl) rows

/-- Column inference on a non-empty encoded schedule. -/
theorem pdColumns_amort (r0 : AmortizationRow) (rs : List AmortizationRow) :
    pdColumns ((r0 :: rs).map toRowFields) = amortCols := by
  have hstep : ∀ l : List AmortizationRow,
      List.foldl pdAddKeys amortCols (l.map toRowFields) = amortCols := by
    intro l
    induction l with
    | nil => rfl
    | cons x xs ih => simpa [pdAddKeys] using ih
  show List.foldl pdAddKeys [] (List.map toRowFields (r0 :: rs)) = amortCols
  rw [List.map_cons, List.foldl_cons]
  exact hstep rs

/-- The inferred frame of a non-empty encoded schedule. -/
theorem pdDataFrame_amort (r0 : AmortizationRow) (rs : List AmortizationRow) :
    pdDataFrame ((r0 :: rs).map toRowFields) =
      ⟨amortCols, (r0 :: rs).map rawCells⟩ := by
  unfold pdDataFrame
  rw [pdColumns_amort]
  congr 1
  rw [List.map_map]
  rfl

/-- A column update that never raises, on mapped rows. -/
theorem mapColE_map {α : Type} (c : String) (g : Json → Except CrashKind Json)
    (cols : List String) (hmem : c ∈ cols) (f h : α → List Json)
    (hrow : ∀ a, (match g ((f a).getD (cols.indexOf c) .null) with
      | .error e => Except.error e
      | .ok v => Except.ok ((f a).set (cols.indexOf c) v)) = Except.ok (h a))
    (l : List α) :
    mapColE c g ⟨cols, l.map f⟩ = .ok ⟨cols, l.map h⟩ := by
  unfold mapColE
  rw [if_pos hmem, mapE_map _ f h hrow l]

/-- The `Payment_Date` parse step. -/
theorem dateStep_amort (rows : List AmortizationRow) :
    mapColE "Payment_Date" (fun v => .ok (pdToDatetime v))
      ⟨amortCols, rows.map rawCells⟩ = .ok ⟨amortCols, rows.map dateCells⟩ :=
  mapColE_map _ _ _ (by decide) rawCells dateCells (fun r => rfl) rows

/-- The five-column currency-formatting loop on an encoded schedule. -/
theorem currency_amort (rows : List AmortizationRow) :
    applyCurrencyCols currency_cols ⟨amortCols, rows.map dateCells⟩ =
      .ok ⟨amortCols, rows.map fmtCells⟩ := by
  have h1 := mapColE_map "Beginning_Balance" currencyCell amortCols (by decide)
    dateCells (fun r =>
      [.num r.paymentNumber, pdToDatetime (.str r.paymentDate),
       .str ("UGX " ++ fmtCommas2 r.beginningBalance), .num r.monthlyPayment,
       .num r.interestPaid, .num r.principalPaid, .num r.endingBalance])
    (fun r => rfl) rows
  have h2 := mapColE_map "Monthly_Payment" currencyCell amortCols (by decide)
    (fun r =>
      [.num r.paymentNumber, pdToDatetime (.str r.paymentDate),
       .str ("UGX " ++ fmtCommas2 r.beginningBalance), .num r.monthlyPayment,
       .num r.interestPaid, .num r.principalPaid, .num r.endingBalance])
    (fun r =>
      [.num r.paymentNumber, pdToDatetime (.str r.paymentDate),
       .str ("UGX " ++ fmtCommas2 r.beginningBalance),
       .str ("UGX " ++ fmtCommas2 r.monthlyPayment),
       .num r.interestPaid, .num r.principalPaid, .num r.endingBalance])
    (fun r => rfl) rows
  have h3 := mapColE_map "Interest_Paid" currencyCell amortCols (by decide)
    (fun r =>
      [.num r.paymentNumber, pdToDatetime (.str r.paymentDate),
       .str ("UGX " ++ fmtCommas2 r.beginningBalance),
       .str ("UGX " ++ fmtCommas2 r.monthlyPayment),
       .num r.interestPaid, .num r.principalPaid, .num r.endingBalance])
    (fun r =>
      [.num r.paymentNumber, pdToDatetime (.str r.paymentDate),
       .str ("UGX " ++ fmtCommas2 r.beginningBalance),
       .str ("UGX " ++ fmtCommas2 r.monthlyPayment),
       .str ("UGX " ++ fmtCommas2 r.interestPaid),
       .num r.principalPaid, .num r.endingBalance])
    (fun r => rfl) rows
  have h4 := mapColE_map "Principal_Paid" currencyCell amortCols (by decide)
    (fun r =>
      [.num r.paymentNumber, pdToDatetime (.str r.paymentDate),
       .str ("UGX " ++ fmtCommas2 r.beginningBalance),
       .str ("UGX " ++ fmtCommas2 r.monthlyPayment),
       .str ("UGX " ++ fmtCommas2 r.interestPaid),
       .num r.principalPaid, .num r.endingBalance])
    (fun r =>
      [.num r.paymentNumber, pdToDatetime (.str r.paymentDate),
       .str ("UGX " ++ fmtCommas2 r.beginningBalance),
       .str ("UGX " ++ fmtCommas2 r.monthlyPayment),
       .str ("UGX " ++ fmtCommas2 r.interestPaid),
       .str ("UGX " ++ fmtCommas2 r.principalPaid),
       .num r.endingBalance])
    (fun r => rfl) rows
  have h5 := mapColE_map "Ending_Balance" currencyCell amortCols (by decide)
    (fun r =>
      [.num r.paymentNumber, pdToDatetime (.str r.paymentDate),
       .str ("UGX " ++ fmtCommas2 r.beginningBalance),
       .str ("UGX " ++ fmtCommas2 r.monthlyPayment),
       .str ("UGX " ++ fmtCommas2 r.interestPaid),
       .str ("UGX " ++ fmtCommas2 r.principalPaid),
       .num r.endingBalance])
    fmtCells
    (fun r => rfl) rows
  have m1 : ("Beginning_Balance" : String) ∈ amortCols := by decide
  have m2 : ("Monthly_Payment" : String) ∈ amortCols := by decide
  have m3 : ("Interest_Paid" : String) ∈ amortCols := by decide
  have m4 : ("Principal_Paid" : String) ∈ amortCols := by decide
  have m5 : ("Ending_Balance" : String) ∈ amortCols := by decide
  simp [applyCurrencyCols, currency_cols, m1, m2, m3, m4, m5, h1, h2, h3, h4, h5]

/-- The `set_index` step on the formatted frame. -/
theorem pdSetIndex_amort (rows : List AmortizationRow) :
    pdSetIndex "Payment_Number" ⟨amortCols, rows.map fmtCells⟩ =
      .ok (rows.map (fun r => Json.num (r.paymentNumber : ℚ)),
        ⟨["Payment_Date", "Beginning_Balance", "Monthly_Payment", "Interest_Paid",
          "Principal_Paid", "Ending_Balance"],
         rows.map displayCells⟩) := by
  unfold pdSetIndex
  have hm : ("Payment_Number" : String) ∈
      (⟨amortCols, rows.map fmtCells⟩ : DataFrame).cols := by
    show ("Payment_Number" : String) ∈ amortCols
    decide
  rw [if_pos hm]
  simp only [List.map_map]
  rfl

/-- The CSV serialization of the raw frame: the header row then the raw,
unformatted cell values. -/
theorem pdToCsv_amort (rows : List AmortizationRow) :
    pdToCsv ⟨amortCols, rows.map rawCells⟩ =
      csvHeader ++ String.join (rows.map csvLine) := by
  unfold pdToCsv csvHeader csvLine
  congr 1
  simp only [List.map_map]
  rfl

/-- A successful `calculate_loan` response carrying a schedule. -/
def loanResponse (t : ℚ) (rows : List AmortizationRow) : Json :=
  .obj [("loan_requested", .bool true),
        ("loan_total_repayable_amount", .num t),
        ("loan_amortization_schedule", .arr (rows.map (fun r => .obj (toRowFields r))))]

/-- The CSV text of an encoded schedule, as the download button receives it. -/
def amortCsv (rows : List AmortizationRow) : String :=
  pdToCsv (pdDataFrame (rows.map toRowFields))

/-- The schedule block on a non-empty encoded schedule: formatted table,
then a download whose payload is the raw CSV. -/
theorem render_schedule_amort (employee_id : String) (tm : ℤ)
    (r0 : AmortizationRow) (rs : List AmortizationRow) :
    render_schedule employee_id tm
      (.arr ((r0 :: rs).map (fun r => .obj (toRowFields r)))) = .ok
      [DisplayAct.stWrite "### 📊 Amortization Schedule",
       DisplayAct.stDataframe "Payment_Number"
         ((r0 :: rs).map (fun r => Json.num (r.paymentNumber : ℚ)))
         ["Payment_Date", "Beginning_Balance", "Monthly_Payment", "Interest_Paid",
          "Principal_Paid", "Ending_Balance"]
         ((r0 :: rs).map displayCells),
       DisplayAct.stDownloadButton "📥 Download Schedule as CSV"
         (amortCsv (r0 :: rs)).toUTF8.toList
         ("amortization_schedule_" ++ employee_id ++ "_" ++ toString tm ++ "months.csv")
         "text/csv"] := by
  simp only [render_schedule, asRowsList_amort, pdDataFrame_amort, dateStep_amort,
    currency_amort, pdSetIndex_amort, amortCsv, Bind.bind, Except.bind,
    pure, Except.pure]

/-- C8: on every non-empty schedule the loan flow renders the
currency-formatted table and a download button whose file name is
`amortization_schedule_<employee_id>_<term>months.csv`, whose payload is the
UTF-8 encoding of the raw CSV, and that CSV is the header row followed by the
raw unformatted row values (`csvLine`) — not the `UGX` display strings. -/
theorem c8_schedule_download_artifact (employee_id : String)
    (loan_amount interest_pct : ℚ) (tm : ℤ) (t : ℚ)
    (r0 : AmortizationRow) (rs : List AmortizationRow) (h : employee_id ≠ "") :
    (loan_submit employee_id loan_amount interest_pct tm
      (fun _ _ => .ok (loanResponse t (r0 :: rs)))).2 = .ok
      [DisplayAct.stSubheader "Personal Loan Result:",
       DisplayAct.stSuccess "🎉 Loan calculation successful!",
       DisplayAct.stMetric "Loan Amount" ("UGX " ++ numRender loan_amount),
       DisplayAct.stMetric "Interest Rate" (fmt1 (interest_pct / 100 * 100) ++ "%"),
       DisplayAct.stMetric "Loan Term" (toString tm ++ " months"),
       DisplayAct.stWrite ("**Total Repayable:** UGX " ++ fmtCommas2 t),
       DisplayAct.stWrite "### 📊 Amortization Schedule",
       DisplayAct.stDataframe "Payment_Number"
         ((r0 :: rs).map (fun r => Json.num (r.paymentNumber : ℚ)))
         ["Payment_Date", "Beginning_Balance", "Monthly_Payment", "Interest_Paid",
          "Principal_Paid", "Ending_Balance"]
         ((r0 :: rs).map displayCells),
       DisplayAct.stDownloadButton "📥 Download Schedule as CSV"
         (amortCsv (r0 :: rs)).toUTF8.toList
         ("amortization_schedule_" ++ employee_id ++ "_" ++ toString tm ++ "months.csv")
         "text/csv"] ∧
    amortCsv (r0 :: rs) = csvHeader ++ String.join ((r0 :: rs).map csvLine) := by
  constructor
  · have hs := render_schedule_amort employee_id tm r0 rs
    simp only [List.map_cons] at hs
    simp [loan_submit, make_request, display_result, h, loanResponse, optTruthy,
      obj_truthy, jGet, jGetD, List.lookup, Json.truthy, render_loan, fmtNum2,
      hs, Bind.bind, Except.bind, pure, Except.pure]
  · rw [amortCsv, pdDataFrame_amort, pdToCsv_amort]

/-- A sample amortization row for the concrete witness. -/
def sampleRow : AmortizationRow :=
  ⟨1, "2024-01-31", 1000000, 89166, 5833, 83333, 916667⟩

/-- C8 witness: a one-row schedule at concrete inputs. -/
theorem c8_schedule_download_artifact_witness :
    (("EMP001" : String) ≠ "") ∧
    ((loan_submit "EMP001" 1000000 7 12
      (fun _ _ => .ok (loanResponse 1070000 [sampleRow]))).2 = .ok
      [DisplayAct.stSubheader "Personal Loan Result:",
       DisplayAct.stSuccess "🎉 Loan calculation successful!",
       DisplayAct.stMetric "Loan Amount" ("UGX " ++ numRender 1000000),
       DisplayAct.stMetric "Interest Rate" (fmt1 ((7 : ℚ) / 100 * 100) ++ "%"),
       DisplayAct.stMetric "Loan Term" (toString (12 : ℤ) ++ " months"),
       DisplayAct.stWrite ("**Total Repayable:** UGX " ++ fmtCommas2 1070000),
       DisplayAct.stWrite "### 📊 Amortization Schedule",
       DisplayAct.stDataframe "Payment_Number"
         ([sampleRow].map (fun r => Json.num (r.paymentNumber : ℚ)))
         ["Payment_Date", "Beginning_Balance", "Monthly_Payment", "Interest_Paid",
          "Principal_Paid", "Ending_Balance"]
         ([sampleRow].map displayCells),
       DisplayAct.stDownloadButton "📥 Download Schedule as CSV"
         (amortCsv [sampleRow]).toUTF8.toList
         ("amortization_schedule_" ++ "EMP001" ++ "_" ++ toString (12 : ℤ) ++ "months.csv")
         "text/csv"] ∧
     amortCsv [sampleRow] = csvHeader ++ String.join ([sampleRow].map csvLine)) :=
  ⟨by decide,
   c8_schedule_download_artifact "EMP001" 1000000 7 12 1070000
     sampleRow [] (by decide)⟩
